import Mathlib

/-!
Verification of the `FilterModal` component (src/components/FilterModal.tsx).

The component holds two pieces of React state, `selectedFilter` (initialised
to `FILTERS[0]`) and `isDownloading` (initialised to `false`).  Its behaviour
is driven by user events on the rendered controls and by the settlement of the
promise returned by the injected `onDownload` collaborator:

* clicking the button for `FILTERS[i]` runs `setSelectedFilter(FILTERS[i])`;
* clicking Cancel, or the backdrop, runs `onClose()`;
* clicking Download (enabled only while `isDownloading` is false, via the
  `disabled={isDownloading}` attribute) runs `handleDownloadClick`, which sets
  `isDownloading` to `true` and invokes
  `onDownload(image.decade, image.url, selectedFilter.css)`;
* when that promise settles — fulfilled or rejected — the `catch` block only
  logs, and the `finally` block runs `setIsDownloading(false)` and then
  `onClose()`.

We embed this as a small-step machine over an explicit `ModalState` that also
records the observable interactions: the list of argument triples passed to
`onDownload` and the number of `onClose` invocations.  `pending` counts the
export continuations currently in flight (the promise has been created but its
`finally` has not yet run).  A trace of events is *valid* when user clicks only
occur while the surrounding layer has not yet received a close signal (it tears
the modal down on the first `onClose`), and a settlement event only occurs when
an export is actually in flight.  Note that a pending continuation survives the
teardown: settlement events stay valid after a close signal.
-/

namespace FilterModal

/-- The `Filter` record of the source: a display name and a CSS filter string. -/
structure Filter where
  name : String
  css : String
deriving DecidableEq

/-- The `FILTERS` catalog constant, verbatim from the source. -/
def FILTERS : List Filter := [
  { name := "Original", css := "none" },
  { name := "Sepia", css := "sepia(0.8)" },
  { name := "Grayscale", css := "grayscale(1)" },
  { name := "Vintage", css := "sepia(0.5) contrast(1.1) brightness(0.9) saturate(1.2)" },
  { name := "Cold", css := "contrast(1.1) brightness(1.05) hue-rotate(-15deg)" },
  { name := "Warm", css := "sepia(0.3) saturate(1.4) hue-rotate(-10deg) contrast(0.95)" }
]

/-- The `image` prop of `FilterModalProps`: a decade label and a URL. -/
structure Image where
  decade : String
  url : String
deriving DecidableEq

/-- One invocation of the `onDownload` collaborator, recording its three
arguments in declaration order: `(decade, imageUrl, filterCss)`. -/
structure ExportCall where
  decade : String
  imageUrl : String
  filterCss : String
deriving DecidableEq

/-- The component's own React state: `selectedFilter` and `isDownloading`. -/
structure SessionState where
  selectedFilter : Filter
  isDownloading : Bool
deriving DecidableEq

/-- `setSelectedFilter(f)`: replaces the selected filter, touching nothing
else (in the source, `isDownloading` lives in a separate `useState` cell). -/
def select (f : Filter) (s : SessionState) : SessionState :=
  { s with selectedFilter := f }

/-- The `useState` initialisers: `useState<Filter>(FILTERS[0])` and
`useState(false)`. -/
def initSession : SessionState :=
  { selectedFilter := FILTERS.get ⟨0, by decide⟩, isDownloading := false }

/-- Full observable state of one modal presentation: the React state plus the
interactions with the environment (in-flight export continuations, `onClose`
invocation count, and the argument triples passed to `onDownload` so far). -/
structure ModalState where
  sess : SessionState
  pending : Nat
  closeCount : Nat
  exportCalls : List ExportCall
deriving DecidableEq

/-- State at mount: fresh session state, nothing in flight, no close signal,
no export invoked. -/
def initModal : ModalState :=
  { sess := initSession, pending := 0, closeCount := 0, exportCalls := [] }

/-- An `onClose()` invocation. -/
def signalClose (s : ModalState) : ModalState :=
  { s with closeCount := s.closeCount + 1 }

/-- The `setIsDownloading(false)` of the `finally` block, retiring the settled
continuation. -/
def resetDownloading (s : ModalState) : ModalState :=
  { s with sess := { s.sess with isDownloading := false }, pending := s.pending - 1 }

/-- The synchronous prefix of `handleDownloadClick`: `setIsDownloading(true)`
followed by the invocation
`onDownload(image.decade, image.url, selectedFilter.css)`, whose argument
triple is captured from the state at this instant. -/
def startDownload (img : Image) (s : ModalState) : ModalState :=
  { s with
    sess := { s.sess with isDownloading := true },
    pending := s.pending + 1,
    exportCalls := s.exportCalls ++
      [{ decade := img.decade, imageUrl := img.url, filterCss := s.sess.selectedFilter.css }] }

/-- The events that drive the component: user clicks on the rendered controls,
and the settlement (fulfilled when `ok`, rejected otherwise) of the promise
returned by `onDownload`. -/
inductive Event where
  | clickFilter (i : Nat)
  | clickCancel
  | clickBackdrop
  | clickDownload
  | exportSettles (ok : Bool)
deriving DecidableEq

/-- One step of the component.
* `clickFilter i` — the button for `FILTERS[i]` runs `setSelectedFilter`;
  no such button exists for `i` out of range, so the state is unchanged.
* `clickCancel` / `clickBackdrop` — both controls run `onClose` directly.
* `clickDownload` — ignored while `isDownloading` (the button carries
  `disabled={isDownloading}`); otherwise runs the synchronous prefix of
  `handleDownloadClick`.
* `exportSettles ok` — the `finally` continuation: `setIsDownloading(false)`
  then `onClose()`.  The `catch` block only logs, so the step is the same for
  both outcomes and no rejection escapes. -/
def step (img : Image) (s : ModalState) : Event → ModalState
  | .clickFilter i =>
      if h : i < FILTERS.length then { s with sess := select (FILTERS.get ⟨i, h⟩) s.sess } else s
  | .clickCancel => signalClose s
  | .clickBackdrop => signalClose s
  | .clickDownload => if s.sess.isDownloading then s else startDownload img s
  | .exportSettles _ => if s.pending != 0 then signalClose (resetDownloading s) else s

/-- Run a trace of events from a given state. -/
def runFrom (img : Image) (s : ModalState) (tr : List Event) : ModalState :=
  tr.foldl (step img) s

/-- Run a trace of events from the freshly mounted modal. -/
def run (img : Image) (tr : List Event) : ModalState :=
  runFrom img initModal tr

/-- Trace validity from a given state: a user click can only happen while the
modal is still presented (no close signal received yet by the owner, which
tears the modal down on the first one), and a settlement can only happen for
an export that is actually in flight.  A pending continuation survives the
teardown, so settlements remain valid after a close signal. -/
def validFrom (img : Image) (s : ModalState) : List Event → Bool
  | [] => true
  | e :: rest =>
      (match e with
       | .exportSettles _ => s.pending != 0
       | _ => s.closeCount == 0) && validFrom img (step img s e) rest

/-- Trace validity from the freshly mounted modal. -/
def validSeq (img : Image) (tr : List Event) : Bool :=
  validFrom img initModal tr

/-- Number of `onClose` invocations an event performs when it executes in a
valid trace: one for Cancel, the backdrop, and each settlement. -/
def closesOf : Event → Nat
  | .clickCancel => 1
  | .clickBackdrop => 1
  | .exportSettles _ => 1
  | _ => 0

/-- Total close signals a trace accounts for. -/
def countCloses (tr : List Event) : Nat :=
  (tr.map closesOf).sum

/-- A concrete image prop used for witnesses and counterexamples. -/
def img0 : Image := { decade := "1950s", url := "https://example.com/photo.png" }

/-- A filter that is not a member of the catalog. -/
def foreignFilter : Filter := { name := "Neon", css := "blur(4px)" }

/-- The state right after an enabled Download click on the fresh modal:
one export in flight. -/
def exportingState : ModalState := step img0 initModal Event.clickDownload

/-- Every step keeps the number of in-flight exports equal to 1 exactly when
`isDownloading` is set, 0 otherwise. -/
theorem step_pending_flag (img : Image) (s : ModalState) (e : Event)
    (h : s.pending = if s.sess.isDownloading then 1 else 0) :
    (step img s e).pending = if (step img s e).sess.isDownloading then 1 else 0 := by
  cases e with
  | clickFilter i =>
      simp only [step]
      split <;> simpa [select] using h
  | clickCancel => simpa [step, signalClose] using h
  | clickBackdrop => simpa [step, signalClose] using h
  | clickDownload =>
      by_cases hd : s.sess.isDownloading
      · simpa [step, hd] using h
      · simp only [hd] at h
        simp [step, hd, startDownload, h]
  | exportSettles ok =>
      by_cases hp : s.pending = 0
      · simpa [step, hp] using h
      · have h1 : s.pending = 1 := by
          by_cases hd : s.sess.isDownloading <;> simp [hd] at h <;> omega
        simp [step, hp, signalClose, resetDownloading, h1]

/-- Running any trace from a state where in-flight exports match the flag ends
in a state where they still match. -/
theorem runFrom_pending_flag (img : Image) (tr : List Event) :
    ∀ s : ModalState, s.pending = (if s.sess.isDownloading then 1 else 0) →
      (runFrom img s tr).pending =
        if (runFrom img s tr).sess.isDownloading then 1 else 0 := by
  induction tr with
  | nil => intro s h; exact h
  | cons e rest ih => intro s h; exact ih (step img s e) (step_pending_flag img s e h)

/-- An event adds `closesOf` many `onClose` invocations, provided a settlement
event only occurs with an export in flight. -/
theorem step_closeCount (img : Image) (s : ModalState) (e : Event)
    (h : ∀ ok : Bool, e = Event.exportSettles ok → s.pending ≠ 0) :
    (step img s e).closeCount = s.closeCount + closesOf e := by
  cases e with
  | clickFilter i => simp [step, closesOf]; split <;> rfl
  | clickCancel => rfl
  | clickBackdrop => rfl
  | clickDownload => simp [step, closesOf]; split <;> simp [startDownload]
  | exportSettles ok =>
      have h1 : s.pending ≠ 0 := h ok rfl
      simp [step, closesOf, h1, signalClose, resetDownloading]

/-- Along a valid trace, the close-signal count grows by exactly the number of
cancel clicks, backdrop clicks and settlements in the trace. -/
theorem validFrom_closeCount (img : Image) (tr : List Event) :
    ∀ s : ModalState, validFrom img s tr = true →
      (runFrom img s tr).closeCount = s.closeCount + countCloses tr := by
  induction tr with
  | nil => intro s _; simp [runFrom, countCloses]
  | cons e rest ih =>
      intro s h
      simp only [validFrom, Bool.and_eq_true] at h
      have hrest := ih (step img s e) h.2
      have hstep : (step img s e).closeCount = s.closeCount + closesOf e := by
        refine step_closeCount img s e ?_
        intro ok hok
        subst hok
        have h1 := h.1
        simpa using h1
      have hsum : countCloses (e :: rest) = closesOf e + countCloses rest := by
        simp [countCloses]
      calc (runFrom img s (e :: rest)).closeCount
          = (runFrom img (step img s e) rest).closeCount := rfl
        _ = (step img s e).closeCount + countCloses rest := hrest
        _ = s.closeCount + closesOf e + countCloses rest := by rw [hstep]
        _ = s.closeCount + countCloses (e :: rest) := by rw [hsum]; omega

/-- Claim C4: a freshly initialized session has `activeFilter` equal to the
catalog's first entry — the identity filter named "Original" with transform
"none" — and `isExporting` false. -/
theorem C4_init_default :
    initSession.selectedFilter = FILTERS.get ⟨0, by decide⟩ ∧
    initSession.selectedFilter = { name := "Original", css := "none" } ∧
    initSession.isDownloading = false :=
  ⟨rfl, rfl, rfl⟩

/-- Claim C7: selection is idempotent — for a catalog filter `f`, selecting
`f` twice leaves `activeFilter = f`, the second call changes nothing further,
and selecting the already-active filter is a no-op on the whole state (and, as
a total function, never errors). -/
theorem C7_select_idempotent (f : Filter) (s : SessionState) (h : f ∈ FILTERS) :
    select f (select f s) = select f s ∧
    (select f s).selectedFilter = f ∧
    (s.selectedFilter = f → select f s = s) := by
  refine ⟨rfl, rfl, fun hf => ?_⟩
  cases s
  simp_all [select]

/-- Witness for C7 at the catalog's "Sepia" entry and the fresh session. -/
theorem C7_witness :
    select (FILTERS.get ⟨1, by decide⟩) (select (FILTERS.get ⟨1, by decide⟩) initSession) =
      select (FILTERS.get ⟨1, by decide⟩) initSession ∧
    (select (FILTERS.get ⟨1, by decide⟩) initSession).selectedFilter =
      FILTERS.get ⟨1, by decide⟩ ∧
    (initSession.selectedFilter = FILTERS.get ⟨1, by decide⟩ →
      select (FILTERS.get ⟨1, by decide⟩) initSession = initSession) :=
  C7_select_idempotent (FILTERS.get ⟨1, by decide⟩) initSession (by decide)

/-- Claim C8: selection never touches the exporting flag — `select` mutates
only `activeFilter`. -/
theorem C8_select_isolation (f : Filter) (s : SessionState) :
    (select f s).isDownloading = s.isDownloading ∧
    (select f s).selectedFilter = f :=
  ⟨rfl, rfl⟩

/-- Claim C6: an enabled Download click first sets `isExporting` and then
invokes the collaborator exactly once, with exactly the triple
`(image.decade, image.url, activeFilter.css)` captured at that instant: the
step is the `startDownload` composition (flag set before the invocation is
recorded), the flag ends true, exactly one call is appended, and exactly one
continuation enters flight. -/
theorem C6_download_invocation (img : Image) (s : ModalState)
    (h : s.sess.isDownloading = false) :
    step img s Event.clickDownload = startDownload img s ∧
    (step img s Event.clickDownload).sess.isDownloading = true ∧
    (step img s Event.clickDownload).exportCalls = s.exportCalls ++
      [{ decade := img.decade, imageUrl := img.url,
         filterCss := s.sess.selectedFilter.css }] ∧
    (step img s Event.clickDownload).pending = s.pending + 1 := by
  simp [step, h, startDownload]

/-- Witness for C6: the first Download click on the fresh modal. -/
theorem C6_witness :
    step img0 initModal Event.clickDownload = startDownload img0 initModal ∧
    (step img0 initModal Event.clickDownload).sess.isDownloading = true ∧
    (step img0 initModal Event.clickDownload).exportCalls = initModal.exportCalls ++
      [{ decade := img0.decade, imageUrl := img0.url,
         filterCss := initModal.sess.selectedFilter.css }] ∧
    (step img0 initModal Event.clickDownload).pending = initModal.pending + 1 :=
  C6_download_invocation img0 initModal rfl

/-- Claim C2: a Download click while `isExporting` is true is ignored (the
button is disabled, so the collaborator is not re-invoked and the state does
not change at all), and in any state the machine can reach, at most one export
is in flight. -/
theorem C2_mutual_exclusion (img : Image) (s : ModalState) (tr : List Event)
    (h : s.sess.isDownloading = true) :
    step img s Event.clickDownload = s ∧ (run img tr).pending ≤ 1 := by
  constructor
  · simp [step, h]
  · have h2 : (run img tr).pending =
        if (run img tr).sess.isDownloading then 1 else 0 :=
      runFrom_pending_flag img tr initModal rfl
    rw [h2]
    split <;> omega

/-- Witness for C2: a second Download click in the exporting state, and the
empty trace. -/
theorem C2_witness :
    step img0 exportingState Event.clickDownload = exportingState ∧
    (run img0 []).pending ≤ 1 :=
  C2_mutual_exclusion img0 exportingState [] rfl

/-- Claim C1: whatever the collaborator's outcome, the settlement step is the
`finally` composition — `isDownloading` reset first, then `onClose` — so the
flag ends false, the close signal has fired once more, and the step does not
depend on whether the promise was fulfilled or rejected (the `catch` block
swallows the fault, which therefore never propagates). -/
theorem C1_cleanup (img : Image) (s : ModalState) (ok : Bool) (h : s.pending ≠ 0) :
    step img s (Event.exportSettles ok) = signalClose (resetDownloading s) ∧
    (step img s (Event.exportSettles ok)).sess.isDownloading = false ∧
    (step img s (Event.exportSettles ok)).closeCount = s.closeCount + 1 ∧
    step img s (Event.exportSettles ok) = step img s (Event.exportSettles (not ok)) := by
  simp [step, h, signalClose, resetDownloading]

/-- Witness for C1: the fulfilled settlement of the one export started from
the fresh modal. -/
theorem C1_witness :
    step img0 exportingState (Event.exportSettles true) =
      signalClose (resetDownloading exportingState) ∧
    (step img0 exportingState (Event.exportSettles true)).sess.isDownloading = false ∧
    (step img0 exportingState (Event.exportSettles true)).closeCount =
      exportingState.closeCount + 1 ∧
    step img0 exportingState (Event.exportSettles true) =
      step img0 exportingState (Event.exportSettles (not true)) :=
  C1_cleanup img0 exportingState true (by decide)

/-- Counterexample to claim C3 as stated: in the valid event sequence
"click Download, click Cancel while the export is in flight, export settles",
the closure signal fires twice within one modal presentation — once from the
Cancel button and once from the `finally` block of the still-running
`handleDownloadClick`. -/
theorem C3_counterexample :
    validSeq img0 [Event.clickDownload, Event.clickCancel, Event.exportSettles true] = true ∧
    (run img0 [Event.clickDownload, Event.clickCancel,
      Event.exportSettles true]).closeCount = 2 :=
  ⟨rfl, rfl⟩

/-- Claim C3, amended: over any valid trace, the closure signal fires exactly
once per cancel or backdrop click plus once per settled download attempt — in
particular exactly once when the session ends by a cancel with no export in
flight or by a single uncancelled download, but twice when the user cancels
while an export is in flight. -/
theorem C3_close_count (img : Image) (tr : List Event)
    (h : validSeq img tr = true) :
    (run img tr).closeCount = countCloses tr := by
  have h2 := validFrom_closeCount img tr initModal h
  simpa [run, initModal] using h2

/-- Witness for C3: a session closed by a single Cancel click. -/
theorem C3_witness :
    (run img0 [Event.clickCancel]).closeCount = countCloses [Event.clickCancel] :=
  C3_close_count img0 [Event.clickCancel] rfl

/-- Claim C5: selecting another filter after a Download click but before the
export settles neither adds nor alters any recorded collaborator call — the
in-flight export keeps the argument triple captured at invocation time, with
the previously selected filter's transform — even though the selection itself
does change to the newly clicked catalog entry. -/
theorem C5_snapshot (img : Image) (s : ModalState) (i : Nat)
    (h : s.sess.isDownloading = false) (hi : i < FILTERS.length) :
    (step img (step img s Event.clickDownload) (Event.clickFilter i)).exportCalls =
      s.exportCalls ++ [{ decade := img.decade, imageUrl := img.url,
                          filterCss := s.sess.selectedFilter.css }] ∧
    (step img (step img s Event.clickDownload) (Event.clickFilter i)).exportCalls =
      (step img s Event.clickDownload).exportCalls ∧
    (step img (step img s Event.clickDownload) (Event.clickFilter i)).sess.selectedFilter =
      FILTERS.get ⟨i, hi⟩ := by
  simp [step, h, hi, startDownload, select]

/-- Witness for C5: Download on the fresh modal, then a click on the "Sepia"
button while the export is in flight. -/
theorem C5_witness :
    (step img0 (step img0 initModal Event.clickDownload)
        (Event.clickFilter 1)).exportCalls =
      initModal.exportCalls ++ [{ decade := img0.decade, imageUrl := img0.url,
                                  filterCss := initModal.sess.selectedFilter.css }] ∧
    (step img0 (step img0 initModal Event.clickDownload)
        (Event.clickFilter 1)).exportCalls =
      (step img0 initModal Event.clickDownload).exportCalls ∧
    (step img0 (step img0 initModal Event.clickDownload)
        (Event.clickFilter 1)).sess.selectedFilter =
      FILTERS.get ⟨1, by decide⟩ :=
  C5_snapshot img0 initModal 1 rfl (by decide)

/-- Counterexample to claim C9 as stated: the underlying selection operation
has no membership guard — called with a filter outside the catalog it does not
crash, but instead of leaving `activeFilter` unchanged or rejecting the call
it sets `activeFilter` to the foreign filter. -/
theorem C9_counterexample :
    (select foreignFilter initSession).selectedFilter = foreignFilter ∧
    foreignFilter ∉ FILTERS ∧
    select foreignFilter initSession ≠ initSession :=
  ⟨rfl, by decide, by decide⟩

/-- Claim C9, amended: in every state reachable through the component's
rendered controls, `activeFilter` is a member of the catalog (the filter
buttons only ever pass catalog entries); the raw selection operation itself,
however, is unguarded and adopts whatever filter it is handed. -/
theorem C9_reachable_member (img : Image) (tr : List Event) :
    (run img tr).sess.selectedFilter ∈ FILTERS := by
  have key : ∀ (tr' : List Event) (s : ModalState),
      s.sess.selectedFilter ∈ FILTERS →
      (runFrom img s tr').sess.selectedFilter ∈ FILTERS := by
    intro tr'
    induction tr' with
    | nil => intro s h; exact h
    | cons e rest ih =>
        intro s h
        refine ih (step img s e) ?_
        cases e with
        | clickFilter i =>
            by_cases hi : i < FILTERS.length
            · simp only [step, hi, dite_true, select]
              exact FILTERS.get_mem _ _
            · simpa [step, hi] using h
        | clickCancel => exact h
        | clickBackdrop => exact h
        | clickDownload =>
            by_cases hd : s.sess.isDownloading <;>
              simpa [step, hd, startDownload] using h
        | exportSettles ok =>
            by_cases hp : s.pending = 0 <;>
              simpa [step, hp, signalClose, resetDownloading] using h
  exact key tr initModal (FILTERS.get_mem _ _)

/-- Claim C10: neither the Download click nor the settlement of the export —
whatever its outcome — changes the selected filter: the download path mutates
only the exporting flag, the close count and the call record. -/
theorem C10_download_preserves_selection (img : Image) (s : ModalState) (ok : Bool) :
    (step img s Event.clickDownload).sess.selectedFilter = s.sess.selectedFilter ∧
    (step img s (Event.exportSettles ok)).sess.selectedFilter = s.sess.selectedFilter := by
  constructor <;>
    simp only [step] <;> split <;>
    simp [startDownload, signalClose, resetDownloading]

end FilterModal
